import Mathlib

/-!
Shallow embedding of `bkk_departures.py`, a real-time departure monitor for
the BKK GTFS-RT feed, together with proofs of the specified properties.

Modelling conventions:
* Python strings are `List Char` (`Str`); `str.lower()` is `Char.toLower`
  mapped over the characters (covering the ASCII letters that drive the
  case-insensitive matching).
* Datetimes are integers counting whole seconds on the local clock;
  `datetime.fromtimestamp` turns a feed timestamp into such an integer, and
  `current_time` (`datetime.now()`) is one as well, so the subtraction
  `arrival_time - current_time` is integer subtraction. Sub-second
  precision does not affect any of the control decisions modelled here.
* Python dicts that the program iterates or filters are association lists
  in insertion order; `d.get(k, default)` is `(List.lookup k d).getD default`.
* A protobuf field backed by `HasField` is an `Option`; the proto3 string
  field `trip.route_id` defaults to the empty string when absent, which is
  exactly the falsy value the source tests with `if trip_update.trip.route_id`.
-/

/-- Python strings, modelled as lists of characters. -/
abbrev Str := List Char

/-- TIME_WINDOW_MINUTES = 5 (module constant of the source). -/
def TIME_WINDOW_MINUTES : Int := 5

/-- The arrival horizon `timedelta(minutes=TIME_WINDOW_MINUTES)`, in seconds. -/
def horizonSeconds : Int := TIME_WINDOW_MINUTES * 60

/-- One row of `stops.txt` as kept in `stops_mapping` (only `stop_name` is
read by the program). -/
structure StopInfo where
  stop_name : Str
  deriving DecidableEq

/-- The dict `stop_id -> details` built by `load_gtfs_static_files`. -/
abbrev StopsMapping := List (Str × StopInfo)

/-- The dict `route_id -> route_short_name` built by `load_gtfs_static_files`. -/
abbrev RoutesMapping := List (Str × Str)

/-- A GTFS-RT `stop_time_update` entry: a stop id and an optional arrival
time (`stop_time.arrival.HasField ("time")`). -/
structure StopTimeUpdate where
  stop_id : Str
  arrival : Option Int
  deriving DecidableEq

/-- A GTFS-RT `trip_update` message: `trip.route_id` (empty when absent)
and the ordered `stop_time_update` list. -/
structure TripUpdateMsg where
  route_id : Str
  stop_time_update : List StopTimeUpdate
  deriving DecidableEq

/-- A feed entity; `trip_update` is `none` when `entity.HasField
("trip_update")` is false. -/
structure FeedEntity where
  trip_update : Option TripUpdateMsg
  deriving DecidableEq

/-- A decoded GTFS-RT feed (`FeedMessage`). -/
structure FeedMessage where
  entity : List FeedEntity
  deriving DecidableEq

/-- The dict appended to `incoming_trams` for each retained stop-time event. -/
structure ArrivalRecord where
  tram_number : Str
  route_id : Str
  stop_name : Str
  arrival_time : Str
  time_to_arrival : Str
  deriving DecidableEq

/-- Two-digit zero-padded decimal rendering, as `str(timedelta)` and
`strftime` produce for minute and second fields (all uses have `n < 100`). -/
def pad2 (n : Nat) : Str :=
  [Nat.digitChar (n / 10), Nat.digitChar (n % 10)]

/-- Unpadded decimal rendering of an hour count below 100, as `str(timedelta)`
produces for the hour field. -/
def hourStr (h : Nat) : Str :=
  if h < 10 then [Nat.digitChar h] else [Nat.digitChar (h / 10), Nat.digitChar (h % 10)]

/-- Rendering of a nonnegative sub-day duration of `s` seconds as
`str(timedelta).split(".")[0]` produces it: `H:MM:SS` with unpadded hours. -/
def fmtTTA (s : Nat) : Str :=
  hourStr (s / 3600) ++ ':' :: (pad2 (s % 3600 / 60) ++ ':' :: pad2 (s % 60))

/-- Rendering of a datetime as `strftime ("%H:%M:%S")`: the time of day,
`HH:MM:SS` with padded hours. -/
def fmtClock (t : Int) : Str :=
  let q : Nat := (t % 86400).toNat
  pad2 (q / 3600) ++ ':' :: (pad2 (q % 3600 / 60) ++ ':' :: pad2 (q % 60))

/-- Python `str.lower()` applied characterwise. -/
def pyLower (s : Str) : Str := s.map Char.toLower

/-- The function `find_stops_by_name (stops_mapping, stop_name_query)`: the
dict comprehension keeping entries whose lowercased `stop_name` contains the
lowercased query as a contiguous substring (Python `in` on strings). -/
def find_stops_by_name (stops_mapping : StopsMapping) (stop_name_query : Str) :
    StopsMapping :=
  stops_mapping.filter
    (fun p => decide (pyLower stop_name_query <:+: pyLower p.2.stop_name))

/-- The fallback route id used when `trip_update.trip.route_id` is falsy. -/
def unknownRouteLabel : Str := "Unknown Route".toList

/-- The fallback tram number used when `routes_mapping.get` misses. -/
def unknownLabel : Str := "Unknown".toList

/-- The body of the inner loop of `get_incoming_trams` for one
`stop_time` entry of a trip update: `some record` when the event passes the
selected-stop test, the arrival-field test and the time-window test, `none`
when any of them rejects it. -/
def processStopTime (routes_mapping : RoutesMapping) (selected_stops : StopsMapping)
    (current_time : Int) (trip_route_id : Str) (stop_time : StopTimeUpdate) :
    Option ArrivalRecord :=
  match selected_stops.lookup stop_time.stop_id, stop_time.arrival with
  | some details, some t =>
    let arrival_time : Int := t
    let time_to_arrival : Int := arrival_time - current_time
    if 0 ≤ time_to_arrival ∧ time_to_arrival ≤ horizonSeconds then
      let route_id : Str := if trip_route_id.isEmpty then unknownRouteLabel else trip_route_id
      let tram_number : Str := (routes_mapping.lookup route_id).getD unknownLabel
      some { tram_number := tram_number
             route_id := route_id
             stop_name := details.stop_name
             arrival_time := fmtClock arrival_time
             time_to_arrival := fmtTTA time_to_arrival.toNat }
    else none
  | _, _ => none

/-- The function `get_incoming_trams (feed, routes_mapping, selected_stops,
current_time)`: walk the feed entities, and for each entity carrying a
trip update, append one record per stop-time event that passes all tests,
in feed order. -/
def get_incoming_trams (feed : FeedMessage) (routes_mapping : RoutesMapping)
    (selected_stops : StopsMapping) (current_time : Int) : List ArrivalRecord :=
  feed.entity.flatMap (fun e =>
    match e.trip_update with
    | some trip_update =>
      trip_update.stop_time_update.filterMap
        (processStopTime routes_mapping selected_stops current_time trip_update.route_id)
    | none => [])

/-- Python string `<` comparison: lexicographic on code points. -/
def pyStrLt : Str → Str → Bool
  | _, [] => false
  | [], _ :: _ => true
  | a :: as, b :: bs =>
    if a.toNat < b.toNat then true
    else if b.toNat < a.toNat then false
    else pyStrLt as bs

/-- The order `sorted` uses on records under the key
`lambda x : x ["time_to_arrival"]`: `x` precedes `y` when the key of `y` is
not strictly below the key of `x`. -/
def ttaLe (x y : ArrivalRecord) : Bool :=
  !(pyStrLt y.time_to_arrival x.time_to_arrival)

/-- The relation form of `ttaLe`, for the sort. -/
def ttaRel (x y : ArrivalRecord) : Prop := ttaLe x y = true

instance : DecidableRel ttaRel := fun x y => inferInstanceAs (Decidable (ttaLe x y = true))

/-- The statement `sorted (trams, key=lambda x : x ["time_to_arrival"])` of
`display_real_time_board`: a stable sort on the time-to-arrival display
string (Python's `sorted` is stable; any stable sort of a total preorder
computes the same list, here realised by stable insertion sort). -/
def sortBoard (trams : List ArrivalRecord) : List ArrivalRecord :=
  trams.insertionSort ttaRel

/-- The function `display_real_time_board (trams)`: the rows of the printed
table, in print order. -/
def display_real_time_board (trams : List ArrivalRecord) : List (List Str) :=
  (sortBoard trams).map
    (fun tram => [tram.tram_number, tram.stop_name, tram.arrival_time, tram.time_to_arrival])

/-- The error raised by `FeedMessage.ParseFromString` on a malformed buffer. -/
inductive FeedDecodeError
  | parseError
  deriving DecidableEq

/-- The body an HTTP response can present to the decoder: bytes that parse
to a feed, or bytes that do not. -/
inductive FetchResponse
  | wellFormed (feed : FeedMessage)
  | malformed
  deriving DecidableEq

/-- The function `fetch_gtfs_rt_feed (url)` downstream of the transport:
`ParseFromString` either yields the decoded feed or raises. -/
def fetch_gtfs_rt_feed : FetchResponse → Except FeedDecodeError FeedMessage
  | .wellFormed f => .ok f
  | .malformed => .error .parseError

/-- The `while True` polling loop of `main`, run against a finite schedule
of fetch outcomes paired with the `datetime.now()` value of the cycle.
Returns the boards rendered in order and whether the run ended by an
uncaught exception: the loop body has no exception handler, so a decode
error ends the process and no later cycle runs. -/
def pollLoop (routes_mapping : RoutesMapping) (selected_stops : StopsMapping) :
    List (FetchResponse × Int) → List (List ArrivalRecord) × Bool
  | [] => ([], false)
  | (resp, now) :: rest =>
    match fetch_gtfs_rt_feed resp with
    | .error _ => ([], true)
    | .ok feed =>
      let tail := pollLoop routes_mapping selected_stops rest
      (get_incoming_trams feed routes_mapping selected_stops now :: tail.1, tail.2)

/-- How the query phase of `main` ends. -/
inductive SessionOutcome
  | noStopsFound
  | monitoring (selected_stops : StopsMapping)
  deriving DecidableEq

/-- The query phase of `main`: resolve the query; when nothing matches,
print the message and `return` (the process ends), otherwise enter the
monitoring loop with the resolved stop set. -/
def mainSession (stops_mapping : StopsMapping) (query : Str) : SessionOutcome :=
  let selected_stops := find_stops_by_name stops_mapping query
  if selected_stops.isEmpty then .noStopsFound else .monitoring selected_stops

/-! Order properties of the Python string comparison. -/

theorem pyStrLt_irrefl (a : Str) : pyStrLt a a = false := by
  induction a with
  | nil => rfl
  | cons x xs ih => simp [pyStrLt, ih]

theorem pyStrLt_trans {a b c : Str} (h1 : pyStrLt a b = true)
    (h2 : pyStrLt b c = true) : pyStrLt a c = true := by
  induction a generalizing b c with
  | nil =>
    cases c with
    | nil => cases b <;> simp [pyStrLt] at h1 h2
    | cons z zs => rfl
  | cons x xs ih =>
    cases b with
    | nil => simp [pyStrLt] at h1
    | cons y ys =>
      cases c with
      | nil => simp [pyStrLt] at h2
      | cons z zs =>
        simp only [pyStrLt] at h1 h2 ⊢
        split_ifs at h1 h2 ⊢ <;> first | rfl | omega | exact ih h1 h2 | simp_all

theorem char_eq_of_toNat_eq {x y : Char} (h : x.toNat = y.toNat) : x = y := by
  apply Char.eq_of_val_eq
  apply UInt32.eq_of_val_eq
  apply Fin.eq_of_val_eq
  exact h

theorem pyStrLt_eq_of_not {a b : Str} (h1 : pyStrLt a b = false)
    (h2 : pyStrLt b a = false) : a = b := by
  induction a generalizing b with
  | nil => cases b with
    | nil => rfl
    | cons y ys => simp [pyStrLt] at h1
  | cons x xs ih =>
    cases b with
    | nil => simp [pyStrLt] at h2
    | cons y ys =>
      simp only [pyStrLt] at h1 h2
      split_ifs at h1 h2 <;> try simp_all
      have hxy : x = y := char_eq_of_toNat_eq (by omega)
      exact ⟨hxy, ih h1 h2⟩

theorem pyStrLt_asymm {a b : Str} (h1 : pyStrLt a b = true)
    (h2 : pyStrLt b a = true) : False := by
  have := pyStrLt_trans h1 h2
  rw [pyStrLt_irrefl] at this
  exact Bool.false_ne_true this

instance : IsTrans ArrivalRecord ttaRel := by
  constructor
  intro a b c hab hbc
  unfold ttaRel ttaLe at hab hbc ⊢
  rw [Bool.not_eq_true'] at hab hbc ⊢
  by_contra hca
  rw [Bool.not_eq_false] at hca
  cases hbc' : pyStrLt b.time_to_arrival c.time_to_arrival with
  | true =>
    have hba := pyStrLt_trans hbc' hca
    rw [hab] at hba
    exact Bool.false_ne_true hba
  | false =>
    have hbceq : b.time_to_arrival = c.time_to_arrival := pyStrLt_eq_of_not hbc' hbc
    rw [← hbceq, hab] at hca
    exact Bool.false_ne_true hca

instance : IsTotal ArrivalRecord ttaRel := by
  constructor
  intro a b
  unfold ttaRel ttaLe
  cases hx : pyStrLt b.time_to_arrival a.time_to_arrival with
  | false => exact Or.inl rfl
  | true =>
    cases hy : pyStrLt a.time_to_arrival b.time_to_arrival with
    | false => exact Or.inr rfl
    | true => exact (pyStrLt_asymm hx hy).elim

/-! Correspondence between the duration rendering and the numeric duration. -/

theorem digitChar_toNat (d : Nat) (h : d < 10) : (Nat.digitChar d).toNat = 48 + d := by
  interval_cases d <;> rfl

theorem pyStrLt_pad2 (m1 m2 : Nat) (r1 r2 : Str) (h1 : m1 < 100) (h2 : m2 < 100) :
    pyStrLt (pad2 m1 ++ r1) (pad2 m2 ++ r2) =
      (if m1 < m2 then true else if m2 < m1 then false else pyStrLt r1 r2) := by
  simp only [pad2, List.cons_append, List.nil_append, pyStrLt,
    digitChar_toNat (m1 / 10) (by omega), digitChar_toNat (m2 / 10) (by omega),
    digitChar_toNat (m1 % 10) (by omega), digitChar_toNat (m2 % 10) (by omega)]
  split_ifs <;> first | rfl | omega

set_option maxHeartbeats 1000000 in
theorem pyStrLt_fmtTTA (s1 s2 : Nat) (h1 : s1 < 36000) (h2 : s2 < 36000) :
    pyStrLt (fmtTTA s1) (fmtTTA s2) = decide (s1 < s2) := by
  have hc : (':' : Char).toNat = 58 := rfl
  have e1 : fmtTTA s1 = Nat.digitChar (s1 / 3600) ::
      ':' :: (pad2 (s1 % 3600 / 60) ++ ':' :: pad2 (s1 % 60)) := by
    simp only [fmtTTA, hourStr, if_pos (show s1 / 3600 < 10 by omega), List.cons_append,
      List.nil_append]
  have e2 : fmtTTA s2 = Nat.digitChar (s2 / 3600) ::
      ':' :: (pad2 (s2 % 3600 / 60) ++ ':' :: pad2 (s2 % 60)) := by
    simp only [fmtTTA, hourStr, if_pos (show s2 / 3600 < 10 by omega), List.cons_append,
      List.nil_append]
  rw [e1, e2]
  simp only [pyStrLt, hc, digitChar_toNat (s1 / 3600) (by omega),
    digitChar_toNat (s2 / 3600) (by omega), Nat.lt_irrefl, if_false]
  rw [digitChar_toNat (s1 % 3600 / 60 / 10) (by omega),
    digitChar_toNat (s2 % 3600 / 60 / 10) (by omega),
    digitChar_toNat (s1 % 3600 / 60 % 10) (by omega),
    digitChar_toNat (s2 % 3600 / 60 % 10) (by omega),
    digitChar_toNat (s1 % 60 / 10) (by omega),
    digitChar_toNat (s2 % 60 / 10) (by omega),
    digitChar_toNat (s1 % 60 % 10) (by omega),
    digitChar_toNat (s2 % 60 % 10) (by omega)]
  by_cases hlt : s1 < s2
  · rw [decide_eq_true hlt]
    split_ifs <;> first | rfl | omega
  · rw [decide_eq_false hlt]
    split_ifs <;> first | rfl | omega

/-! Inversion principles for the extractor. -/

/-- Characterisation of a successful run of the inner loop body: the stop is
selected, an arrival time is present, the window test passes, and the record
is exactly the dict the source appends. -/
theorem processStopTime_eq_some {routes : RoutesMapping} {sel : StopsMapping}
    {now : Int} {rid : Str} {st : StopTimeUpdate} {r : ArrivalRecord}
    (h : processStopTime routes sel now rid st = some r) :
    ∃ (details : StopInfo) (t : Int),
      sel.lookup st.stop_id = some details ∧ st.arrival = some t ∧
      0 ≤ t - now ∧ t - now ≤ horizonSeconds ∧
      r = { tram_number :=
              (routes.lookup (if rid.isEmpty then unknownRouteLabel else rid)).getD unknownLabel
            route_id := if rid.isEmpty then unknownRouteLabel else rid
            stop_name := details.stop_name
            arrival_time := fmtClock t
            time_to_arrival := fmtTTA (t - now).toNat } := by
  unfold processStopTime at h
  rcases hsel : sel.lookup st.stop_id with _ | details <;> rw [hsel] at h
  · simp at h
  · rcases harr : st.arrival with _ | t <;> rw [harr] at h
    · simp at h
    · simp only at h
      split_ifs at h with hwin hrid
      · refine ⟨details, t, rfl, rfl, hwin.1, hwin.2, ?_⟩
        simp only [hrid, if_true]
        exact (Option.some.inj h).symm
      · refine ⟨details, t, rfl, rfl, hwin.1, hwin.2, ?_⟩
        simp only [hrid, Bool.false_eq_true, if_false]
        exact (Option.some.inj h).symm

/-- Every record of `get_incoming_trams` arises, via the inner loop body,
from a stop-time event of a trip update carried by some feed entity. -/
theorem mem_get_incoming_trams {feed : FeedMessage} {routes : RoutesMapping}
    {sel : StopsMapping} {now : Int} {r : ArrivalRecord}
    (h : r ∈ get_incoming_trams feed routes sel now) :
    ∃ e ∈ feed.entity, ∃ tu, e.trip_update = some tu ∧
      ∃ st ∈ tu.stop_time_update, processStopTime routes sel now tu.route_id st = some r := by
  unfold get_incoming_trams at h
  rw [List.mem_flatMap] at h
  obtain ⟨e, he, hr⟩ := h
  rcases htu : e.trip_update with _ | tu <;> rw [htu] at hr
  · simp at hr
  · rw [List.mem_filterMap] at hr
    obtain ⟨st, hst, hpr⟩ := hr
    exact ⟨e, he, tu, htu, st, hst, hpr⟩

/-! Concrete data for the closed instances. -/

/-- A stop shared by the concrete instances. -/
def exStop : StopInfo := ⟨"Zsigmond tér".toList⟩

/-- A two-stop catalog. -/
def exStops : StopsMapping :=
  [("F00001".toList, exStop), ("F00002".toList, ⟨"Batthyány tér".toList⟩)]

/-- A one-route catalog: route id 3040 is tram 19. -/
def exRoutes : RoutesMapping := [("3040".toList, "19".toList)]

/-- A stop-time event at the first stop, arriving at timestamp 1000. -/
def exEvent : StopTimeUpdate := ⟨"F00001".toList, some 1000⟩

/-- A trip update on route 3040 carrying the one event. -/
def exTrip : TripUpdateMsg := ⟨"3040".toList, [exEvent]⟩

/-- A one-entity feed carrying the one trip update. -/
def exFeed : FeedMessage := ⟨[⟨some exTrip⟩]⟩

/-- The record the extractor emits for `exFeed` at current time 900. -/
def exRecord : ArrivalRecord :=
  ⟨"19".toList, "3040".toList, "Zsigmond tér".toList, fmtClock 1000, fmtTTA 100⟩

/-- A record with a given time-to-arrival, for the sorting instance. -/
def recOfTTA (s : Nat) : ArrivalRecord :=
  ⟨"19".toList, "3040".toList, "Zsigmond tér".toList, fmtClock 0, fmtTTA s⟩

/-- The board row rendered for `recOfTTA s`. -/
def rowOfTTA (s : Nat) : List Str :=
  ["19".toList, "Zsigmond tér".toList, fmtClock 0, fmtTTA s]

/-! Claims. -/

/-- C4: for every stops mapping and every query, `find_stops_by_name`
returns exactly the stops whose `stop_name` contains the query as a
case-insensitive substring, and in particular the query "zsigmond" matches
the stop named "Zsigmond tér". -/
theorem C4_find_stops_by_name_exact :
    (∀ (m : StopsMapping) (q : Str) (p : Str × StopInfo),
      p ∈ find_stops_by_name m q ↔ p ∈ m ∧ pyLower q <:+: pyLower p.2.stop_name) ∧
    ("F00001".toList, exStop) ∈ find_stops_by_name exStops ("zsigmond".toList) := by
  constructor
  · intro m q p
    simp [find_stops_by_name, List.mem_filter]
  · decide

/-- C10: the empty query matches every stop, so `find_stops_by_name` returns
the whole stops mapping. -/
theorem C10_empty_query_returns_all (m : StopsMapping) :
    find_stops_by_name m [] = m := by
  unfold find_stops_by_name
  rw [List.filter_eq_self]
  intro p _
  exact decide_eq_true List.nil_infix

/-- C9: extraction is deterministic — two calls of `get_incoming_trams` on
identical feeds, catalogs, selected stops and the same current time return
the same ordered record list. -/
theorem C9_extraction_deterministic (feed1 feed2 : FeedMessage)
    (routes1 routes2 : RoutesMapping) (sel1 sel2 : StopsMapping) (now1 now2 : Int)
    (hf : feed1 = feed2) (hm : routes1 = routes2) (hs : sel1 = sel2)
    (hn : now1 = now2) :
    get_incoming_trams feed1 routes1 sel1 now1 =
      get_incoming_trams feed2 routes2 sel2 now2 := by
  rw [hf, hm, hs, hn]

/-- Closed instance of C9 at the concrete feed. -/
theorem C9_extraction_deterministic_witness :
    get_incoming_trams exFeed exRoutes exStops 900 =
      get_incoming_trams exFeed exRoutes exStops 900 :=
  C9_extraction_deterministic exFeed exFeed exRoutes exRoutes exStops exStops
    900 900 rfl rfl rfl rfl

/-- C6: a stop-time event with no arrival timestamp yields no record: the
inner loop body returns `none` on it, and extraction of a feed containing it
equals extraction of the same feed with the event removed. -/
theorem C6_event_without_arrival_is_skipped (routes : RoutesMapping)
    (sel : StopsMapping) (now : Int) (rid : Str)
    (ents1 ents2 : List FeedEntity) (evs1 evs2 : List StopTimeUpdate)
    (st : StopTimeUpdate) (h : st.arrival = none) :
    processStopTime routes sel now rid st = none ∧
    get_incoming_trams ⟨ents1 ++ ⟨some ⟨rid, evs1 ++ st :: evs2⟩⟩ :: ents2⟩ routes sel now =
      get_incoming_trams ⟨ents1 ++ ⟨some ⟨rid, evs1 ++ evs2⟩⟩ :: ents2⟩ routes sel now := by
  have hnone : processStopTime routes sel now rid st = none := by
    unfold processStopTime
    rw [h]
    rcases sel.lookup st.stop_id with _ | d <;> rfl
  refine ⟨hnone, ?_⟩
  unfold get_incoming_trams
  simp [List.flatMap_append, List.filterMap_append, hnone]

/-- Closed instance of C6 at a concrete event with no prediction. -/
theorem C6_event_without_arrival_is_skipped_witness :
    processStopTime exRoutes exStops 900 ("3040".toList) ⟨"F00001".toList, none⟩ = none ∧
    get_incoming_trams
        ⟨[] ++ ⟨some ⟨"3040".toList, [] ++ ⟨"F00001".toList, none⟩ :: [exEvent]⟩⟩ :: []⟩
        exRoutes exStops 900 =
      get_incoming_trams ⟨[] ++ ⟨some ⟨"3040".toList, [] ++ [exEvent]⟩⟩ :: []⟩
        exRoutes exStops 900 :=
  C6_event_without_arrival_is_skipped exRoutes exStops 900 ("3040".toList)
    [] [] [] [exEvent] ⟨"F00001".toList, none⟩ rfl

/-- C7: every record of `get_incoming_trams` is for a stop drawn from the
selected-stop set passed to it: its displayed stop name is the catalog name
of a stop id the selected mapping contains. -/
theorem C7_records_drawn_from_selected_stops (feed : FeedMessage)
    (routes : RoutesMapping) (sel : StopsMapping) (now : Int) (r : ArrivalRecord)
    (hr : r ∈ get_incoming_trams feed routes sel now) :
    ∃ (sid : Str) (details : StopInfo),
      sel.lookup sid = some details ∧ r.stop_name = details.stop_name := by
  obtain ⟨e, -, tu, -, st, -, hpr⟩ := mem_get_incoming_trams hr
  obtain ⟨details, t, hsel, -, -, -, hrec⟩ := processStopTime_eq_some hpr
  exact ⟨st.stop_id, details, hsel, by rw [hrec]⟩

/-- Closed instance of C7 at the concrete feed. -/
theorem C7_records_drawn_from_selected_stops_witness :
    ∃ (sid : Str) (details : StopInfo),
      exStops.lookup sid = some details ∧ exRecord.stop_name = details.stop_name :=
  C7_records_drawn_from_selected_stops exFeed exRoutes exStops 900 exRecord (by decide)

/-- C5: when a stop-time event passes the stop, arrival and window tests, a
record is emitted unconditionally; a blank trip route id is replaced by the
"Unknown Route" sentinel, and a route id with no catalog entry yields the
"Unknown" tram label — never an error. -/
theorem C5_unknown_route_fallbacks (routes : RoutesMapping) (sel : StopsMapping)
    (now : Int) (rid : Str) (st : StopTimeUpdate) (details : StopInfo) (t : Int)
    (hsel : sel.lookup st.stop_id = some details) (harr : st.arrival = some t)
    (hlo : 0 ≤ t - now) (hhi : t - now ≤ horizonSeconds) :
    ∃ r : ArrivalRecord, processStopTime routes sel now rid st = some r ∧
      (rid.isEmpty = true → r.route_id = unknownRouteLabel) ∧
      (routes.lookup r.route_id = none → r.tram_number = unknownLabel) := by
  refine ⟨{ tram_number :=
              (routes.lookup (if rid.isEmpty then unknownRouteLabel else rid)).getD unknownLabel
            route_id := if rid.isEmpty then unknownRouteLabel else rid
            stop_name := details.stop_name
            arrival_time := fmtClock t
            time_to_arrival := fmtTTA (t - now).toNat }, ?_, ?_, ?_⟩
  · simp only [processStopTime, hsel, harr]
    rw [if_pos ⟨hlo, hhi⟩]
  · intro hempty
    simp only [hempty, if_true]
  · intro hnone
    simp only at hnone ⊢
    rw [hnone]
    rfl

/-- Closed instance of C5 at the concrete catalog, with a blank route id. -/
theorem C5_unknown_route_fallbacks_witness :
    ∃ r : ArrivalRecord, processStopTime exRoutes exStops 900 [] exEvent = some r ∧
      (List.isEmpty ([] : Str) = true → r.route_id = unknownRouteLabel) ∧
      (exRoutes.lookup r.route_id = none → r.tram_number = unknownLabel) :=
  C5_unknown_route_fallbacks exRoutes exStops 900 [] exEvent exStop 1000
    rfl rfl (by decide) (by decide)

/-- C1: every record of `get_incoming_trams` carries a time-to-arrival
`t - now` satisfying `0 ≤ t - now ≤ horizonSeconds` for the arrival
timestamp `t` it was built from, and both boundary values are retained:
an event whose time-to-arrival is exactly 0 or exactly the horizon still
produces a record. -/
theorem C1_time_window_invariant (feed : FeedMessage) (routes : RoutesMapping)
    (sel : StopsMapping) (now : Int) :
    (∀ r ∈ get_incoming_trams feed routes sel now,
      ∃ t : Int, 0 ≤ t - now ∧ t - now ≤ horizonSeconds ∧
        r.time_to_arrival = fmtTTA (t - now).toNat) ∧
    (∀ (rid : Str) (st : StopTimeUpdate) (details : StopInfo) (t : Int),
      sel.lookup st.stop_id = some details → st.arrival = some t →
      (t - now = 0 ∨ t - now = horizonSeconds) →
      (processStopTime routes sel now rid st).isSome = true) := by
  constructor
  · intro r hr
    obtain ⟨e, -, tu, -, st, -, hpr⟩ := mem_get_incoming_trams hr
    obtain ⟨details, t, -, -, hlo, hhi, hrec⟩ := processStopTime_eq_some hpr
    exact ⟨t, hlo, hhi, by rw [hrec]⟩
  · intro rid st details t hsel harr hb
    have hcond : 0 ≤ t - now ∧ t - now ≤ horizonSeconds := by
      have h300 : horizonSeconds = 300 := rfl
      rcases hb with hb | hb <;> rw [h300] at * <;> omega
    simp only [processStopTime, hsel, harr]
    rw [if_pos hcond]
    rfl

/-- Closed instance of C1: the record of the concrete feed is in the window,
and events at distance exactly 0 and exactly the horizon are retained. -/
theorem C1_time_window_invariant_witness :
    (∃ t : Int, 0 ≤ t - 900 ∧ t - 900 ≤ horizonSeconds ∧
      exRecord.time_to_arrival = fmtTTA (t - 900).toNat) ∧
    (processStopTime exRoutes exStops 1000 ("3040".toList) exEvent).isSome = true ∧
    (processStopTime exRoutes exStops 700 ("3040".toList) exEvent).isSome = true :=
  ⟨(C1_time_window_invariant exFeed exRoutes exStops 900).1 exRecord (by decide),
   (C1_time_window_invariant exFeed exRoutes exStops 1000).2 ("3040".toList) exEvent exStop 1000
     rfl rfl (Or.inl (by decide)),
   (C1_time_window_invariant exFeed exRoutes exStops 700).2 ("3040".toList) exEvent exStop 1000
     rfl rfl (Or.inr (by decide))⟩

/-- C3: the board renders records sorted ascending by time-to-arrival: in
the sorted sequence, whenever consecutive records display in-window
durations of `s1` and `s2` seconds, `s1 ≤ s2`; and the three records with
time-to-arrival 0:02:00, 0:00:30, 0:04:00 are rendered in the order
0:00:30, 0:02:00, 0:04:00. -/
theorem C3_board_sorted_ascending :
    (∀ trams : List ArrivalRecord,
      List.Chain' (fun r1 r2 => ∀ s1 s2 : Nat, s1 ≤ 300 → s2 ≤ 300 →
        r1.time_to_arrival = fmtTTA s1 → r2.time_to_arrival = fmtTTA s2 → s1 ≤ s2)
        (sortBoard trams)) ∧
    display_real_time_board [recOfTTA 120, recOfTTA 30, recOfTTA 240] =
      [rowOfTTA 30, rowOfTTA 120, rowOfTTA 240] := by
  constructor
  · intro trams
    have hs : List.Sorted ttaRel (sortBoard trams) :=
      List.sorted_insertionSort ttaRel trams
    refine List.Pairwise.chain' (List.Pairwise.imp ?_ hs)
    intro x y hxy s1 s2 hb1 hb2 he1 he2
    unfold ttaRel ttaLe at hxy
    rw [Bool.not_eq_true'] at hxy
    rw [he1, he2, pyStrLt_fmtTTA s2 s1 (by omega) (by omega)] at hxy
    rw [decide_eq_false_iff_not] at hxy
    omega
  · decide

/-- C2 counterexample: with a malformed first response, the poll loop run
renders no board at all and ends by an uncaught decode error — the next
cycle, whose well-formed response alone would render a board, never runs. -/
theorem C2_decode_failure_not_recoverable :
    pollLoop exRoutes exStops
        [(FetchResponse.malformed, 900), (FetchResponse.wellFormed exFeed, 900)] =
      ([], true) ∧
    pollLoop exRoutes exStops [(FetchResponse.wellFormed exFeed, 900)] =
      ([[exRecord]], false) := by
  constructor <;> rfl

/-- C2 amended: a decode failure in a poll cycle is not recoverable — the
loop body of `main` has no exception handler, so the error propagates,
the run ends at that cycle, and no later cycle runs. -/
theorem C2_decode_error_ends_loop (routes : RoutesMapping) (sel : StopsMapping)
    (now : Int) (rest : List (FetchResponse × Int)) :
    pollLoop routes sel ((FetchResponse.malformed, now) :: rest) = ([], true) := rfl

/-- C8 counterexample: for a query matching no stop, the resolver returns
the empty mapping and the session ends (`main` prints the message and
returns) — it does not restart the query step. -/
theorem C8_no_match_terminates :
    find_stops_by_name exStops ("waterloo".toList) = [] ∧
    mainSession exStops ("waterloo".toList) = SessionOutcome.noStopsFound := by
  constructor <;> rfl

/-- C8 amended: when nothing matches the query, `find_stops_by_name`
returns the empty mapping without raising, `main` reports this, and the
session terminates rather than restarting the query step. -/
theorem C8_empty_result_ends_session (stops : StopsMapping) (q : Str)
    (h : ∀ p ∈ stops, ¬ pyLower q <:+: pyLower p.2.stop_name) :
    find_stops_by_name stops q = [] ∧
    mainSession stops q = SessionOutcome.noStopsFound := by
  have hempty : find_stops_by_name stops q = [] := by
    unfold find_stops_by_name
    rw [List.filter_eq_nil]
    intro p hp
    simpa using h p hp
  refine ⟨hempty, ?_⟩
  simp only [mainSession, hempty]
  rfl

/-- Closed instance of the amended C8 at the concrete catalog. -/
theorem C8_empty_result_ends_session_witness :
    find_stops_by_name exStops ("kamaraerdo".toList) = [] ∧
    mainSession exStops ("kamaraerdo".toList) = SessionOutcome.noStopsFound :=
  C8_empty_result_ends_session exStops ("kamaraerdo".toList) (by decide)
